import Mathlib

/-!
Verification of the VTU mesh decoding and tessellation pipeline of
`CreateVTUViewer.jsx` against its specification.

Shallow embedding conventions:
* JS numbers that hold point indices or topology tags are modelled as `ℤ`;
  scalar values and coordinates as `ℚ` (all arithmetic the claims exercise is
  exact).
* Reading a JS array out of range yields `undefined`; a cell-buffer entry is
  therefore `Option ℤ` (`none` = `undefined`), and the emitted triangle-count
  marker `3` is `some 3`.
* A fallible path (a `throw`, or a method call on `null`) becomes `Except`.
-/

/-- A JS array-read result: `none` models `undefined` (index out of range). -/
abbrev JsVal := Option ℤ

/-- `cellIndices[k]` — JS indexing, `undefined` when out of range. -/
def idx (cellIndices : List ℤ) (k : ℕ) : JsVal :=
  cellIndices.get? k

/-- Topology tag for triangles (`VTK_TRIANGLE` in the source). -/
def VTK_TRIANGLE : ℤ := 5

/-- Topology tag for quads (`VTK_QUAD`). -/
def VTK_QUAD : ℤ := 9

/-- Topology tag for tetrahedra (`VTK_TETRA`). -/
def VTK_TETRA : ℤ := 10

/-- Topology tag for hexahedra (`VTK_HEXAHEDRON`). -/
def VTK_HEXAHEDRON : ℤ := 12

/-- Topology tag for wedges (`VTK_WEDGE`). -/
def VTK_WEDGE : ℤ := 13

/-- Topology tag for pyramids (`VTK_PYRAMID`). -/
def VTK_PYRAMID : ℤ := 14

/-- The quad-diagonal split used for every quadrilateral face in the source:
`push(3, ci[f0], ci[f1], ci[f2], 3, ci[f0], ci[f2], ci[f3])`. -/
def quadSplit (ci : List ℤ) (f0 f1 f2 f3 : ℕ) : List JsVal :=
  [some 3, idx ci f0, idx ci f1, idx ci f2,
   some 3, idx ci f0, idx ci f2, idx ci f3]

/-- The hexahedron face table of the source (`faces` at lines 146–153). -/
def hexFaces : List (ℕ × ℕ × ℕ × ℕ) :=
  [(0, 1, 2, 3), (4, 5, 6, 7), (0, 1, 5, 4), (2, 3, 7, 6), (0, 3, 7, 4), (1, 2, 6, 5)]

/-- The wedge face table of the source (`wedgeFaces`, lines 169–175): mixed
triangular and quadrilateral faces, kept as raw index lists as in the source. -/
def wedgeFaces : List (List ℕ) :=
  [[0, 1, 2], [3, 4, 5], [0, 1, 4, 3], [1, 2, 5, 4], [0, 2, 5, 3]]

/-- The pyramid face table of the source (`pyramidFaces`, lines 195–201). -/
def pyramidFaces : List (List ℕ) :=
  [[0, 1, 2, 3], [0, 1, 4], [1, 2, 4], [2, 3, 4], [3, 0, 4]]

/-- The wedge/pyramid `forEach` body: a length-3 face is pushed directly
(`push(3, ...face.map(idx => ci[idx]))`), any other face is diagonal-split
through its entries 0,1,2,3 — exactly the source's `if (face.length === 3)`. -/
def pushFace (ci : List ℤ) (face : List ℕ) : List JsVal :=
  if face.length = 3 then
    some 3 :: face.map (fun k => idx ci k)
  else
    quadSplit ci (face.getD 0 0) (face.getD 1 0) (face.getD 2 0) (face.getD 3 0)

/-- One iteration of the `extractCells` switch (source lines 109–231): the
triangles emitted for a single cell, dispatched on its topology tag.
`numPoints` is `offsets[i] - previousOffset` as in the source and is consulted
only by the default (fan) branch. -/
def tessellateCell (cellType : ℤ) (numPoints : ℤ) (cellIndices : List ℤ) : List JsVal :=
  if cellType = VTK_TRIANGLE then
    some 3 :: cellIndices.map some
  else if cellType = VTK_QUAD then
    quadSplit cellIndices 0 1 2 3
  else if cellType = VTK_TETRA then
    [some 3, idx cellIndices 0, idx cellIndices 1, idx cellIndices 2,
     some 3, idx cellIndices 0, idx cellIndices 2, idx cellIndices 3,
     some 3, idx cellIndices 0, idx cellIndices 3, idx cellIndices 1,
     some 3, idx cellIndices 1, idx cellIndices 3, idx cellIndices 2]
  else if cellType = VTK_HEXAHEDRON then
    hexFaces.flatMap (fun f => quadSplit cellIndices f.1 f.2.1 f.2.2.1 f.2.2.2)
  else if cellType = VTK_WEDGE then
    wedgeFaces.flatMap (fun f => pushFace cellIndices f)
  else if cellType = VTK_PYRAMID then
    pyramidFaces.flatMap (fun f => pushFace cellIndices f)
  else
    if 3 ≤ numPoints then
      (List.range (numPoints - 2).toNat).flatMap
        (fun j => [some 3, idx cellIndices 0, idx cellIndices (j + 1), idx cellIndices (j + 2)])
    else
      []

/-- The `extractCells` loop (source lines 104–234): walks `types` and
`offsets` in lockstep carrying `previousOffset`, slices the connectivity
window `connectivity.slice(previousOffset, offsets[i])`, and appends that
cell's triangles. -/
def cellsLoop (conn : List ℤ) : List ℤ → List ℕ → ℕ → List JsVal
  | cellType :: types, o :: offs, previousOffset =>
      tessellateCell cellType ((o : ℤ) - (previousOffset : ℤ))
        ((conn.drop previousOffset).take (o - previousOffset)) ++
      cellsLoop conn types offs o
  | _, _, _ => []

/-- Unfolding lemma: the loop on an empty `types` array emits nothing. -/
theorem cellsLoop_nil (conn : List ℤ) (offs : List ℕ) (p : ℕ) :
    cellsLoop conn [] offs p = [] := by
  cases offs <;> rfl

/-- Unfolding lemma: one iteration of the loop. -/
theorem cellsLoop_cons (conn : List ℤ) (t : ℤ) (types : List ℤ) (o : ℕ)
    (offs : List ℕ) (p : ℕ) :
    cellsLoop conn (t :: types) (o :: offs) p =
      tessellateCell t ((o : ℤ) - (p : ℤ)) ((conn.drop p).take (o - p)) ++
      cellsLoop conn types offs o := rfl

/-- The error message thrown by `extractCells` when a cell sub-array is
missing — the spec's `MissingTopology`. -/
def MissingTopology : String := "Missing required cell data in the VTU file."

/-- `extractCells` (source lines 81–237): the three named sub-arrays are
looked up (`none` = the querySelector found no tag); if any is absent the
function throws before any triangle is built, otherwise it runs the
tessellation loop from offset 0. -/
def extractCells (conn : Option (List ℤ)) (offs : Option (List ℕ))
    (types : Option (List ℤ)) : Except String (List JsVal) :=
  match conn, offs, types with
  | some c, some o, some ty => .ok (cellsLoop c ty o 0)
  | _, _, _ => .error MissingTopology

/-- Claim C1: a quad cell (tag 9) with point-index window `[a,b,c,d]` emits
exactly the two triangles `(a,b,c)` and `(a,c,d)` (split along diagonal 0–2),
in that order, both through the per-cell switch (for any `numPoints`) and
through the whole `extractCells` pipeline on a one-quad document.  Each
triangle is encoded as the marker `3` followed by its three point indices. -/
theorem quad_splits_on_diagonal_02 (a b c d : ℤ) (numPoints : ℤ) :
    tessellateCell VTK_QUAD numPoints [a, b, c, d] =
      [some 3, some a, some b, some c, some 3, some a, some c, some d] ∧
    extractCells (some [a, b, c, d]) (some [4]) (some [9]) =
      .ok [some 3, some a, some b, some c, some 3, some a, some c, some d] := by
  constructor <;> rfl

/-- Claim C2: a tetrahedron cell (tag 10) with window `[a,b,c,d]` emits
exactly four triangles, one per face, following the local face table
`(0,1,2),(0,2,3),(0,3,1),(1,3,2)`: globally `(a,b,c),(a,c,d),(a,d,b),(b,d,c)`
in that order. -/
theorem tetra_emits_four_faces (a b c d : ℤ) (numPoints : ℤ) :
    tessellateCell VTK_TETRA numPoints [a, b, c, d] =
      [some 3, some a, some b, some c,
       some 3, some a, some c, some d,
       some 3, some a, some d, some b,
       some 3, some b, some d, some c] ∧
    extractCells (some [a, b, c, d]) (some [4]) (some [10]) =
      .ok [some 3, some a, some b, some c,
           some 3, some a, some c, some d,
           some 3, some a, some d, some b,
           some 3, some b, some d, some c] := by
  constructor <;> rfl

/-- Claim C3: a hexahedron cell (tag 12) emits 12 triangles — its 6 fixed
quadrilateral faces each diagonal-split as a quad; a wedge cell (tag 13)
emits 8 — the 2 triangular end faces directly plus the 3 quadrilateral side
faces split; a pyramid cell (tag 14) emits 6 — the split quadrilateral base
plus the 4 triangular sides. -/
theorem hex_wedge_pyramid_faces
    (p0 p1 p2 p3 p4 p5 p6 p7 : ℤ) (w0 w1 w2 w3 w4 w5 : ℤ)
    (q0 q1 q2 q3 q4 : ℤ) (n : ℤ) :
    tessellateCell VTK_HEXAHEDRON n [p0, p1, p2, p3, p4, p5, p6, p7] =
      [some 3, some p0, some p1, some p2, some 3, some p0, some p2, some p3,
       some 3, some p4, some p5, some p6, some 3, some p4, some p6, some p7,
       some 3, some p0, some p1, some p5, some 3, some p0, some p5, some p4,
       some 3, some p2, some p3, some p7, some 3, some p2, some p7, some p6,
       some 3, some p0, some p3, some p7, some 3, some p0, some p7, some p4,
       some 3, some p1, some p2, some p6, some 3, some p1, some p6, some p5] ∧
    tessellateCell VTK_WEDGE n [w0, w1, w2, w3, w4, w5] =
      [some 3, some w0, some w1, some w2,
       some 3, some w3, some w4, some w5,
       some 3, some w0, some w1, some w4, some 3, some w0, some w4, some w3,
       some 3, some w1, some w2, some w5, some 3, some w1, some w5, some w4,
       some 3, some w0, some w2, some w5, some 3, some w0, some w5, some w3] ∧
    tessellateCell VTK_PYRAMID n [q0, q1, q2, q3, q4] =
      [some 3, some q0, some q1, some q2, some 3, some q0, some q2, some q3,
       some 3, some q0, some q1, some q4,
       some 3, some q1, some q2, some q4,
       some 3, some q2, some q3, some q4,
       some 3, some q3, some q0, some q4] := by
  refine ⟨rfl, rfl, rfl⟩

/-- The fan decomposition as the spec words it (§4.3): for a window of `n`
points, the triangles `(0, j+1, j+2)` for `j` in `0..n-3`, anchored at the
cell's first point; empty when `n < 3` (`n - 2 = 0` in `ℕ`). -/
def fanTriangles (ci : List ℤ) : List JsVal :=
  (List.range (ci.length - 2)).flatMap
    (fun j => [some 3, idx ci 0, idx ci (j + 1), idx ci (j + 2)])

/-- Claim C4: for any topology tag outside {5, 9, 10, 12, 13, 14}, a cell
whose window has `n` points tessellates to the `n - 2` fan triangles
`(0, j+1, j+2)` in order when `n ≥ 3` and to nothing when `n < 3`; both
branches are total — no error is raised (`tessellateCell` returns a plain
list, and `extractCells` wraps the whole loop in `.ok`). -/
theorem unknown_tag_fan_fallback (cellType : ℤ) (ci : List ℤ)
    (h : cellType ∉ ([5, 9, 10, 12, 13, 14] : List ℤ)) :
    tessellateCell cellType (ci.length : ℤ) ci = fanTriangles ci ∧
    extractCells (some ci) (some [ci.length]) (some [cellType]) =
      .ok (fanTriangles ci) := by
  simp only [List.mem_cons, List.not_mem_nil, or_false, not_or] at h
  obtain ⟨h5, h9, h10, h12, h13, h14⟩ := h
  have hcell : tessellateCell cellType (ci.length : ℤ) ci = fanTriangles ci := by
    rw [tessellateCell]
    simp only [VTK_TRIANGLE, VTK_QUAD, VTK_TETRA, VTK_HEXAHEDRON, VTK_WEDGE, VTK_PYRAMID]
    rw [if_neg h5, if_neg h9, if_neg h10, if_neg h12, if_neg h13, if_neg h14]
    by_cases h3 : 3 ≤ (ci.length : ℤ)
    · rw [if_pos h3, fanTriangles]
      have h2 : ((ci.length : ℤ) - 2).toNat = ci.length - 2 := by omega
      rw [h2]
    · rw [if_neg h3, fanTriangles]
      have h0 : ci.length - 2 = 0 := by omega
      rw [h0]
      rfl
  refine ⟨hcell, ?_⟩
  show Except.ok (cellsLoop ci [cellType] [ci.length] 0) = _
  rw [cellsLoop_cons, cellsLoop_nil]
  simp only [List.drop_zero, List.take_length, Nat.sub_zero, List.append_nil,
    Nat.cast_zero, sub_zero]
  rw [hcell]

/-- Witness for C4 at the spec's own example: tag 1 with the 5-point window
`[10,11,12,13,14]` falls back to the fan and yields 3 triangles. -/
theorem unknown_tag_fan_fallback_witness :
    (1 : ℤ) ∉ ([5, 9, 10, 12, 13, 14] : List ℤ) ∧
    (tessellateCell 1 (([10, 11, 12, 13, 14] : List ℤ).length : ℤ) [10, 11, 12, 13, 14] =
        fanTriangles [10, 11, 12, 13, 14] ∧
      extractCells (some [10, 11, 12, 13, 14]) (some [5]) (some [1]) =
        .ok (fanTriangles [10, 11, 12, 13, 14])) :=
  ⟨by decide, unknown_tag_fan_fallback 1 [10, 11, 12, 13, 14] (by decide)⟩

/-- Claim C5: `extractCells` raises `MissingTopology` if and only if at least
one of the connectivity, offsets, types sub-arrays is absent from the
document; in the `Except` embedding an `.error` result is the raise and by
construction carries no triangle buffer (the loop is never entered). -/
theorem missing_topology_iff (conn : Option (List ℤ)) (offs : Option (List ℕ))
    (types : Option (List ℤ)) :
    extractCells conn offs types = .error MissingTopology ↔
      conn = none ∨ offs = none ∨ types = none := by
  cases conn <;> cases offs <;> cases types <;> simp [extractCells]

/-- The nine `addRGBPoint` calls of `applyColorMap` (source lines 255–263),
as the list of (scalar position, R, G, B) control points of the lookup
table, in call order. -/
def applyColorMapPoints (mn mx : ℚ) : List (ℚ × ℚ × ℚ × ℚ) :=
  [(mn, 0, 0, 1),
   (mn + (mx - mn) * 0.125, 0, 0.2157, 1),
   (mn + (mx - mn) * 0.25, 0, 0.4275, 1),
   (mn + (mx - mn) * 0.375, 0.0392, 0.6431, 0.9961),
   (mn + (mx - mn) * 0.5, 0.2745, 0.8157, 0.9255),
   (mn + (mx - mn) * 0.625, 0.9961, 0.6431, 0.4745),
   (mn + (mx - mn) * 0.75, 1, 0.4275, 0.2745),
   (mn + (mx - mn) * 0.875, 1, 0.2157, 0.1333),
   (mx, 1, 0, 0)]

/-- Claim C6: for `mn < mx` the transfer function has exactly 9 control
points, positioned at `mn + (mx - mn) * t` for
`t ∈ {0, .125, .25, .375, .5, .625, .75, .875, 1}` in order — hence strictly
increasing and spanning exactly `[mn, mx]` — and carrying exactly the fixed
blue-to-red RGB ramp of the source. -/
theorem transfer_function_nine_stops (mn mx : ℚ) (h : mn < mx) :
    (applyColorMapPoints mn mx).map (fun p => p.1) =
      [0, 0.125, 0.25, 0.375, 0.5, 0.625, 0.75, 0.875, 1].map
        (fun t => mn + (mx - mn) * t) ∧
    List.Chain' (fun x y => x < y) ((applyColorMapPoints mn mx).map (fun p => p.1)) ∧
    ((applyColorMapPoints mn mx).map (fun p => p.1)).head? = some mn ∧
    ((applyColorMapPoints mn mx).map (fun p => p.1)).getLast? = some mx ∧
    (applyColorMapPoints mn mx).map (fun p => p.2) =
      [(0, 0, 1), (0, 0.2157, 1), (0, 0.4275, 1), (0.0392, 0.6431, 0.9961),
       (0.2745, 0.8157, 0.9255), (0.9961, 0.6431, 0.4745), (1, 0.4275, 0.2745),
       (1, 0.2157, 0.1333), (1, 0, 0)] ∧
    (applyColorMapPoints mn mx).length = 9 := by
  refine ⟨?_, ?_, rfl, rfl, rfl, rfl⟩
  · simp only [applyColorMapPoints, List.map_cons, List.map_nil, List.cons.injEq, and_true]
    refine ⟨by ring_nf, by ring_nf, by ring_nf, by ring_nf, by ring_nf, by ring_nf, by ring_nf,
      by ring_nf, by ring_nf⟩
  · simp only [applyColorMapPoints, List.map_cons, List.map_nil, List.chain'_cons,
      List.chain'_singleton, and_true]
    refine ⟨?_, ?_, ?_, ?_, ?_, ?_, ?_, ?_⟩ <;> nlinarith [h]

/-- Witness for C6 at the spec's example range `(0, 10)`: the control points
sit at `0, 1.25, 2.5, 3.75, 5, 6.25, 7.5, 8.75, 10`. -/
theorem transfer_function_nine_stops_witness :
    (0 : ℚ) < 10 ∧
    ((applyColorMapPoints 0 10).map (fun p => p.1) =
        [0, 0.125, 0.25, 0.375, 0.5, 0.625, 0.75, 0.875, 1].map
          (fun t => 0 + (10 - 0) * t) ∧
      List.Chain' (fun x y => x < y) ((applyColorMapPoints 0 10).map (fun p => p.1)) ∧
      ((applyColorMapPoints 0 10).map (fun p => p.1)).head? = some 0 ∧
      ((applyColorMapPoints 0 10).map (fun p => p.1)).getLast? = some 10 ∧
      (applyColorMapPoints 0 10).map (fun p => p.2) =
        [(0, 0, 1), (0, 0.2157, 1), (0, 0.4275, 1), (0.0392, 0.6431, 0.9961),
         (0.2745, 0.8157, 0.9255), (0.9961, 0.6431, 0.4745), (1, 0.4275, 0.2745),
         (1, 0.2157, 0.1333), (1, 0, 0)] ∧
      (applyColorMapPoints 0 10).length = 9) :=
  ⟨by norm_num, transfer_function_nine_stops 0 10 (by norm_num)⟩

/-- The mesh state the threshold filter reads and writes: a vtkPolyData as
this module uses it — a flat point-coordinate buffer, a triangle cell buffer
(as produced by `extractCells`), and the optional point-scalar array
(`getPointData().getScalars()`, `none` when no scalars were ever set). -/
structure PolyData where
  points : List ℚ
  polys : List JsVal
  scalars : Option (List ℚ)
deriving DecidableEq

/-- The per-point mask of `enableThreshold` (source line 335):
`scalars.map((value) => value > thresholdValue)`. -/
def jsMask (scalars : List ℚ) (thresholdValue : ℚ) : List Bool :=
  scalars.map (fun value => decide (value > thresholdValue))

/-- JS indexing into the mask: an out-of-range read is `undefined`, which is
falsy, so it defaults to `false`. -/
def maskAt (mask : List Bool) (i : ℕ) : Bool :=
  (mask.get? i).getD false

/-- `Array.prototype.filter` with an index-aware callback, the combinator
behind `.filter((_, index) => ...)`. -/
def jsFilterIdx (f : ℕ → Bool) : List ℚ → ℕ → List ℚ
  | [], _ => []
  | x :: xs, i => if f i then x :: jsFilterIdx f xs (i + 1) else jsFilterIdx f xs (i + 1)

/-- The filtered point buffer of `enableThreshold` (source lines 337–342):
coordinate entry `index` survives iff `mask[Math.floor(index / 3)]` is
truthy. -/
def filteredPoints (pts : List ℚ) (mask : List Bool) : List ℚ :=
  jsFilterIdx (fun i => maskAt mask (i / 3)) pts 0

/-- The TypeError raised when `getScalars()` returns null and `.getData()` is
called on it (source line 334 on a scalar-free mesh). -/
def thresholdTypeError : String :=
  "TypeError: Cannot read properties of null"

/-- `enableThreshold` (source lines 330–349) on the mapper's current input
mesh: dereferences the active scalar array (a TypeError when absent), masks
the points, and installs a fresh PolyData carrying only the filtered point
buffer — its cell buffer is empty and it has no scalars. -/
def enableThreshold (pd : PolyData) (thresholdValue : ℚ) : Except String PolyData :=
  match pd.scalars with
  | none => .error thresholdTypeError
  | some scalars =>
      .ok ⟨filteredPoints pd.points (jsMask scalars thresholdValue), [], none⟩

/-- Modelled from the spec (§4.5): the filtered PointSet is the concatenation
of the 3-coordinate triples of the points whose scalar passes `> t`, in their
original relative order. -/
def passingTriples : List ℚ → List ℚ → ℚ → List ℚ
  | v :: s, a :: b :: c :: pts, t =>
      (if v > t then [a, b, c] else []) ++ passingTriples s pts t
  | _, _, _ => []

/-- Unfolding lemma for `passingTriples` on one point. -/
theorem passingTriples_cons (v : ℚ) (s : List ℚ) (a b c : ℚ) (pts : List ℚ) (t : ℚ) :
    passingTriples (v :: s) (a :: b :: c :: pts) t =
      (if v > t then [a, b, c] else []) ++ passingTriples s pts t := rfl

/-- One coordinate triple of the JS filter, when scanning starts at a
triple boundary `3 * k`: all three coordinates share the mask bit `k`. -/
theorem filteredPoints_step (mask : List Bool) (a b c : ℚ) (rest : List ℚ) (k : ℕ) :
    jsFilterIdx (fun i => maskAt mask (i / 3)) (a :: b :: c :: rest) (3 * k) =
      (if maskAt mask k then [a, b, c] else []) ++
      jsFilterIdx (fun i => maskAt mask (i / 3)) rest (3 * (k + 1)) := by
  have h1 : 3 * k / 3 = k := by omega
  have h2 : (3 * k + 1) / 3 = k := by omega
  have h3 : (3 * k + 1 + 1) / 3 = k := by omega
  have h4 : 3 * k + 1 + 1 + 1 = 3 * (k + 1) := by omega
  simp only [jsFilterIdx, h1, h2, h3, h4]
  by_cases h : maskAt mask k <;> simp [h]

/-- The JS index-mask filter agrees with the spec's triple-wise reading at
every triple boundary `k` of the mask. -/
theorem filteredPoints_aux (t : ℚ) :
    ∀ (s pts : List ℚ) (mask : List Bool) (k : ℕ),
      pts.length = 3 * s.length →
      mask.drop k = jsMask s t →
      jsFilterIdx (fun i => maskAt mask (i / 3)) pts (3 * k) = passingTriples s pts t := by
  intro s
  induction s with
  | nil =>
      intro pts mask k hlen hdrop
      have hnil : pts = [] := by
        cases pts with
        | nil => rfl
        | cons a l => simp only [List.length_cons, List.length_nil] at hlen; omega
      subst hnil
      rfl
  | cons v s ih =>
      intro pts mask k hlen hdrop
      match pts with
      | [] => exfalso; simp only [List.length_nil, List.length_cons] at hlen; omega
      | [a] => exfalso; simp only [List.length_cons, List.length_nil] at hlen; omega
      | [a, b] => exfalso; simp only [List.length_cons, List.length_nil] at hlen; omega
      | a :: b :: c :: rest =>
        have hlen3 : rest.length = 3 * s.length := by
          simp only [List.length_cons] at hlen; omega
        have hmk : maskAt mask k = decide (v > t) := by
          have h0 : (List.drop k mask)[0]? = some (decide (v > t)) := by
            rw [hdrop]; simp [jsMask]
          rw [List.getElem?_drop, Nat.add_zero] at h0
          show (mask.get? k).getD false = decide (v > t)
          rw [List.get?_eq_getElem?, h0]
          rfl
        have hdrop1 : mask.drop (k + 1) = jsMask s t := by
          have h0 : (mask.drop k).drop 1 = (jsMask (v :: s) t).drop 1 := by rw [hdrop]
          simpa [List.drop_drop, jsMask] using h0
        rw [filteredPoints_step, hmk, ih rest mask (k + 1) hlen3 hdrop1, passingTriples_cons]
        by_cases hv : v > t <;> simp [hv]

/-- The source's filtered point buffer equals the spec's concatenation of
passing triples, whenever the point buffer holds one coordinate triple per
scalar value. -/
theorem filteredPoints_eq_passingTriples (s pts : List ℚ) (t : ℚ)
    (hlen : pts.length = 3 * s.length) :
    filteredPoints pts (jsMask s t) = passingTriples s pts t := by
  have h := filteredPoints_aux t s pts (jsMask s t) 0 hlen (by rw [List.drop_zero])
  simpa [filteredPoints] using h

/-- When every scalar passes the threshold, the spec-side filter keeps the
whole point buffer. -/
theorem passingTriples_all_pass (t : ℚ) :
    ∀ (s pts : List ℚ), pts.length = 3 * s.length → (∀ v ∈ s, v > t) →
      passingTriples s pts t = pts := by
  intro s
  induction s with
  | nil =>
      intro pts hlen _
      have hnil : pts = [] := by
        cases pts with
        | nil => rfl
        | cons a l => simp only [List.length_cons, List.length_nil] at hlen; omega
      subst hnil
      rfl
  | cons v s ih =>
      intro pts hlen hall
      match pts with
      | [] => exfalso; simp only [List.length_nil, List.length_cons] at hlen; omega
      | [a] => exfalso; simp only [List.length_cons, List.length_nil] at hlen; omega
      | [a, b] => exfalso; simp only [List.length_cons, List.length_nil] at hlen; omega
      | a :: b :: c :: rest =>
        have hlen3 : rest.length = 3 * s.length := by
          simp only [List.length_cons] at hlen; omega
        rw [passingTriples_cons, if_pos (hall v (List.mem_cons_self v s))]
        simp [ih rest hlen3 (fun w hw => hall w (List.mem_cons_of_mem v hw))]

/-- When no scalar passes the threshold, the spec-side filter is empty. -/
theorem passingTriples_none_pass (t : ℚ) :
    ∀ (s pts : List ℚ), (∀ v ∈ s, v ≤ t) → passingTriples s pts t = [] := by
  intro s
  induction s with
  | nil => intro pts _; cases pts <;> rfl
  | cons v s ih =>
      intro pts hle
      match pts with
      | [] => rfl
      | [a] => rfl
      | [a, b] => rfl
      | a :: b :: c :: rest =>
        rw [passingTriples_cons, if_neg (not_lt.mpr (hle v (List.mem_cons_self v s)))]
        simpa using ih rest (fun w hw => hle w (List.mem_cons_of_mem v hw))

/-- Claim C7: the threshold filter keeps point `i` iff its scalar is strictly
above the threshold, and the filtered PointSet is exactly the concatenation
of the coordinate triples of the passing points in original order; when every
scalar passes it equals the original buffer, and when none passes it is
empty.  The hypothesis is the PointSet/ScalarField invariant (three
coordinates per scalar value). -/
theorem threshold_filters_points (pts s : List ℚ) (polys : List JsVal) (t : ℚ)
    (hlen : pts.length = 3 * s.length) :
    enableThreshold ⟨pts, polys, some s⟩ t =
      .ok ⟨passingTriples s pts t, [], none⟩ ∧
    ((∀ v ∈ s, v > t) → passingTriples s pts t = pts) ∧
    ((∀ v ∈ s, v ≤ t) → passingTriples s pts t = []) := by
  refine ⟨?_, fun h => passingTriples_all_pass t s pts hlen h,
    fun h => passingTriples_none_pass t s pts h⟩
  simp only [enableThreshold]
  rw [filteredPoints_eq_passingTriples s pts t hlen]

/-- Witness for C7: two points with scalars `0` and `5` against threshold
`2` — only the second point's triple `(4,5,6)` survives. -/
theorem threshold_filters_points_witness :
    ([1, 2, 3, 4, 5, 6] : List ℚ).length = 3 * ([0, 5] : List ℚ).length ∧
    (enableThreshold ⟨[1, 2, 3, 4, 5, 6], [], some [0, 5]⟩ 2 =
        .ok ⟨passingTriples [0, 5] [1, 2, 3, 4, 5, 6] 2, [], none⟩ ∧
      ((∀ v ∈ ([0, 5] : List ℚ), v > 2) →
        passingTriples [0, 5] [1, 2, 3, 4, 5, 6] 2 = [1, 2, 3, 4, 5, 6]) ∧
      ((∀ v ∈ ([0, 5] : List ℚ), v ≤ 2) →
        passingTriples [0, 5] [1, 2, 3, 4, 5, 6] 2 = [])) :=
  ⟨by decide, threshold_filters_points [1, 2, 3, 4, 5, 6] [0, 5] [] 2 (by decide)⟩

/-- The shape of every successful `enableThreshold` result: a fresh PolyData
holding only the filtered point buffer — empty cell buffer, no scalars. -/
theorem enableThreshold_ok_shape (pd : PolyData) (t : ℚ) (pd2 : PolyData)
    (h : enableThreshold pd t = .ok pd2) :
    ∃ s, pd.scalars = some s ∧
      pd2 = ⟨filteredPoints pd.points (jsMask s t), [], none⟩ := by
  cases pd with
  | mk points polys scalars =>
    cases scalars with
    | none => simp [enableThreshold] at h
    | some s =>
      refine ⟨s, rfl, ?_⟩
      simp only [enableThreshold, Except.ok.injEq] at h
      exact h.symm

/-- Claim C8: whatever mesh and threshold the filter is applied to, the
replacement mesh carries only the rebuilt point buffer: its triangle index
buffer is empty and its scalar buffer absent — neither is remapped or
regenerated from the original mesh, so the original triangle and scalar data
do not carry over into the filtered result. -/
theorem threshold_rebuilds_only_points (pd : PolyData) (t : ℚ) (pd2 : PolyData)
    (h : enableThreshold pd t = .ok pd2) :
    pd2.polys = [] ∧ pd2.scalars = none := by
  obtain ⟨s, -, rfl⟩ := enableThreshold_ok_shape pd t pd2 h
  exact ⟨rfl, rfl⟩

/-- Witness for C8: a one-triangle, one-point mesh filtered at threshold 0
comes back with point buffer intact but empty polys and no scalars. -/
theorem threshold_rebuilds_only_points_witness :
    enableThreshold ⟨[1, 2, 3], [some 3, some 0, some 1, some 2], some [5]⟩ 0 =
      .ok ⟨[1, 2, 3], [], none⟩ ∧
    ((⟨[1, 2, 3], [], none⟩ : PolyData).polys = [] ∧
      (⟨[1, 2, 3], [], none⟩ : PolyData).scalars = none) :=
  ⟨by rfl,
    threshold_rebuilds_only_points ⟨[1, 2, 3], [some 3, some 0, some 1, some 2], some [5]⟩ 0
      ⟨[1, 2, 3], [], none⟩ (by rfl)⟩

/-- Claim C10: once the filter has run, the mesh installed as the mapper's
input has no scalar array at all, so a second `enableThreshold` on the same
actor — for any pair of thresholds and any starting mesh — does not filter
again but fails with a TypeError dereferencing the absent scalar array. -/
theorem threshold_second_application_fails (pd : PolyData) (t1 t2 : ℚ)
    (pd2 : PolyData) (h : enableThreshold pd t1 = .ok pd2) :
    pd2.scalars = none ∧ enableThreshold pd2 t2 = .error thresholdTypeError := by
  obtain ⟨s, -, rfl⟩ := enableThreshold_ok_shape pd t1 pd2 h
  exact ⟨rfl, rfl⟩

/-- Witness for C10: filtering the witness mesh once succeeds; the second
filtering call fails with the TypeError. -/
theorem threshold_second_application_fails_witness :
    enableThreshold ⟨[1, 2, 3], [some 3, some 0, some 1, some 2], some [5]⟩ 1 =
      .ok ⟨[1, 2, 3], [], none⟩ ∧
    ((⟨[1, 2, 3], [], none⟩ : PolyData).scalars = none ∧
      enableThreshold ⟨[1, 2, 3], [], none⟩ 2 = .error thresholdTypeError) :=
  ⟨by rfl,
    threshold_second_application_fails ⟨[1, 2, 3], [some 3, some 0, some 1, some 2], some [5]⟩
      1 2 ⟨[1, 2, 3], [], none⟩ (by rfl)⟩

/-- `Math.min(...values)`: the spread of an empty array gives `Math.min()`,
which is `Infinity` — modelled as `none`. -/
def jsMathMin : List ℚ → Option ℚ
  | [] => none
  | x :: xs =>
      match jsMathMin xs with
      | none => some x
      | some m => some (min x m)

/-- `Math.max(...values)`: empty spread gives `-Infinity`, modelled `none`. -/
def jsMathMax : List ℚ → Option ℚ
  | [] => none
  | x :: xs =>
      match jsMathMax xs with
      | none => some x
      | some m => some (max x m)

/-- The scalar-range step of `addVTUToScene` (source line 307): `scalars` is
the `extractScalars` result — `null` (`none`) when the chosen field is absent
from the document; `scalars.getData()` on null raises a TypeError, and
otherwise the range `[Math.min(...data), Math.max(...data)]` is computed with
no check that the field has any values. -/
def sceneScalarRange (scalars : Option (List ℚ)) : Except String (Option ℚ × Option ℚ) :=
  match scalars with
  | none => .error thresholdTypeError
  | some values => .ok (jsMathMin values, jsMathMax values)

/-- Counterexample to claim C9: a chosen scalar field with zero values does
not make assembly fail — no `EmptyScalarField` (or any) error is raised; the
code happily computes the degenerate range `(Infinity, -Infinity)` and builds
the mesh with it. -/
theorem empty_scalar_field_not_rejected :
    sceneScalarRange (some []) = .ok (none, none) := rfl

/-- Claim C9 as amended: assembling with a zero-value scalar field raises no
error — the scalar range is computed as `(Math.min(), Math.max())`, i.e. the
degenerate `(Infinity, -Infinity)`, and a mesh with that undefined color
range is produced; the only error this step can raise is the TypeError from
dereferencing a `null` scalars object, which happens exactly when the chosen
field is absent from the document. -/
theorem scalar_range_error_iff_field_absent (scalars : Option (List ℚ)) :
    (sceneScalarRange scalars = .error thresholdTypeError ↔ scalars = none) ∧
    sceneScalarRange (some []) = .ok (none, none) := by
  refine ⟨?_, rfl⟩
  cases scalars <;> simp [sceneScalarRange]
